import Mathlib

/-!
Verification development for the ft-scraper pipeline.

Shallow embedding of the components under `src/`:
- `src/utils/file_handler.py` (JSON save/load, checkpointing, analysis),
- `src/scrapers/sitemap_scraper.py` (recursive sitemap expansion, gzip fetch),
- `src/scrapers/article_scraper.py` (task loading, year derivation, scheduler),
- `src/utils/data_utils.py` (`DateExtractor`).

Python string and integer primitives are re-implemented over `List Char`
by structural recursion so that all concrete instances reduce inside the
kernel.  External collaborators (HTTP, gzip, dateutil, the rendering API,
the extraction library, the file system) are modelled as explicit
environment parameters; thread pools are modelled by an explicit
completion order (a permutation of the submitted tasks) or, for the
recursive sitemap expansion, by a sequential linearization with an
explicit fuel parameter standing for the (potentially infinite)
recursion depth.
-/

namespace FtScraper

/-! ## Python string primitives (over `List Char`) -/

/-- Does the second list start with the first one (`str.startswith`)? -/
def leadsWith : List Char → List Char → Bool
  | [], _ => true
  | _ :: _, [] => false
  | p :: ps, c :: cs => p == c && leadsWith ps cs

/-- Substring containment, Python's `sub in s` (for non-empty `sub`). -/
def containsSub (pat : List Char) : List Char → Bool
  | [] => leadsWith pat []
  | c :: cs => leadsWith pat (c :: cs) || containsSub pat cs

/-- Auxiliary worker for `pySplit`: fuel-indexed scan over the character
list.  `acc` holds the current segment reversed.  The fuel is always at
least the length of the remaining input, so the `0` case is unreachable
for the wrapper below. -/
def splitOnAux (pat : List Char) : Nat → List Char → List Char → List (List Char)
  | _, acc, [] => [acc.reverse]
  | 0, acc, rest => [acc.reverse ++ rest]
  | fuel + 1, acc, c :: cs =>
    if leadsWith pat (c :: cs) then
      acc.reverse :: splitOnAux pat fuel [] ((c :: cs).drop pat.length)
    else
      splitOnAux pat fuel (c :: acc) cs

/-- Python's `s.split(sep)` for a non-empty separator `sep`: split on every
(non-overlapping, leftmost) occurrence; adjacent separators and
separators at either end produce empty segments, and the result is never
empty. -/
def pySplit (s sep : String) : List String :=
  (splitOnAux sep.data (s.data.length + 1) [] s.data).map List.asString

/-- Python's `sub in s` for strings. -/
def pyContains (s sub : String) : Bool :=
  containsSub sub.data s.data

/-- Python's `s.replace(old, new)` (all non-overlapping occurrences,
left to right), via split-and-rejoin. -/
def pyReplace (s old new : String) : String :=
  String.intercalate new (pySplit s old)

/-- Python's `s.endswith(suffix)`. -/
def pyEndsWith (s suffix : String) : Bool :=
  leadsWith suffix.data.reverse s.data.reverse

/-- Strip leading and trailing whitespace (`str.strip()` with no
argument). -/
def stripEnds (l : List Char) : List Char :=
  ((l.dropWhile Char.isWhitespace).reverse.dropWhile Char.isWhitespace).reverse

/-- Decimal digits (with embedded single underscores between digits, as
accepted by Python 3's `int`): tail validator.  The head digit is
checked by `digitsOkCore`. -/
def digitsTailOk : List Char → Bool
  | [] => true
  | ['_'] => false
  | '_' :: c :: rest => c.isDigit && digitsTailOk rest
  | c :: rest => c.isDigit && digitsTailOk rest

/-- A non-empty digit string, optionally with single underscores between
digits (`1_000`), as accepted by Python 3's `int`. -/
def digitsOkCore : List Char → Bool
  | [] => false
  | c :: rest => c.isDigit && digitsTailOk rest

/-- Numeric value of a digit string, ignoring underscores. -/
def digitsVal (l : List Char) : Nat :=
  (l.filter (fun c => c != '_')).foldl (fun acc c => acc * 10 + (c.toNat - '0'.toNat)) 0

/-- Python's `int(s)` on a decimal string: strip whitespace, optional
sign, then digits (with optional grouping underscores); `none` models
the `ValueError` raised on anything else. -/
def pyInt? (s : String) : Option Int :=
  match stripEnds s.data with
  | '-' :: rest => if digitsOkCore rest then some (-(digitsVal rest : Int)) else none
  | '+' :: rest => if digitsOkCore rest then some ((digitsVal rest : Int)) else none
  | rest => if digitsOkCore rest then some ((digitsVal rest : Int)) else none

/-- Python truthiness of a string: non-empty. -/
def pyTruthyStr (s : String) : Bool :=
  !(s.data.isEmpty)

/-- Python truthiness of `dict.get(key)` for a string-valued key:
the key is present and its value is a non-empty string. -/
def pyTruthyOptStr : Option String → Bool
  | none => false
  | some s => pyTruthyStr s

/-- Python's `xs[:k]` for an arbitrary (possibly negative) integer `k`. -/
def pySliceTo (k : Int) (xs : List α) : List α :=
  if 0 ≤ k then xs.take k.toNat else xs.take (xs.length - (-k).toNat)

/-! ## Calendar arithmetic

`datetime.fromtimestamp` and `datetime.strptime` are modelled exactly on
the proleptic Gregorian calendar.  `Int.ediv` is floor division for the
positive divisors used here, matching Python's `//`. -/

/-- Gregorian leap-year test. -/
def isLeapYear (y : Int) : Bool :=
  y % 4 == 0 && (y % 100 != 0 || y % 400 == 0)

/-- Number of days in month `m` (1-12) of year `y`. -/
def daysInMonth (y : Int) (m : Int) : Int :=
  if m == 2 then (if isLeapYear y then 29 else 28)
  else if m == 4 || m == 6 || m == 9 || m == 11 then 30
  else 31

/-- Civil (year, month) of a day count relative to 1970-01-01
(standard days-to-civil conversion on the proleptic Gregorian
calendar). -/
def civilOfDays (z0 : Int) : Int × Int :=
  let z := z0 + 719468
  let era := z.ediv 146097
  let doe := z - era * 146097
  let yoe := (doe - doe.ediv 1460 + doe.ediv 36524 - doe.ediv 146096).ediv 365
  let y := yoe + era * 400
  let doy := doe - (365 * yoe + yoe.ediv 4 - yoe.ediv 100)
  let mp := (5 * doy + 2).ediv 153
  let m := if mp < 10 then mp + 3 else mp - 9
  (if m ≤ 2 then y + 1 else y, m)

/-- Year and month of `datetime.fromtimestamp(ms / 1000)` evaluated at a
fixed UTC offset of `offSec` seconds (the process-local timezone for
the naive `fromtimestamp`, `0` for `tz=timezone.utc`); `none` models the
`ValueError` raised when the resulting year falls outside
`datetime`'s 1..9999 range. -/
def epochMsYearMonth? (offSec ms : Int) : Option (Int × Int) :=
  let ym := civilOfDays ((ms + offSec * 1000).ediv 86400000)
  if 1 ≤ ym.1 && ym.1 ≤ 9999 then some ym else none

/-- All characters are decimal digits. -/
def allDigits (l : List Char) : Bool :=
  l.all Char.isDigit

/-- A 1- or 2-digit numeric field of a `strptime` pattern. -/
def twoDigitField? (s : String) : Option Int :=
  if (s.data.length == 1 || s.data.length == 2) && allDigits s.data then
    some ((digitsVal s.data : Nat) : Int)
  else none

/-- Python's `datetime.strptime(s, "%Y-%m-%d %H:%M:%S")`, reduced to the
(year, month) pair used by the callers: `%Y` is exactly four digits,
the remaining fields are one or two digits, and the assembled date-time
must be valid for `datetime` (month 1-12, day within the month, hour
0-23, minute 0-59, second 0-59 — `strptime`'s leap seconds 60/61 are
rejected by the `datetime` constructor, hence by the whole call).
`none` models the `ValueError` on any mismatch. -/
def strptimeYmdHms? (s : String) : Option (Int × Int) :=
  match pySplit s " " with
  | [d, t] =>
    match pySplit d "-", pySplit t ":" with
    | [ys, ms, ds], [hs, mins, ss] =>
      if ys.data.length == 4 && allDigits ys.data then
        let y : Int := ((digitsVal ys.data : Nat) : Int)
        match twoDigitField? ms, twoDigitField? ds,
              twoDigitField? hs, twoDigitField? mins, twoDigitField? ss with
        | some m, some dd, some h, some mi, some sec =>
          if 1 ≤ y && 1 ≤ m && m ≤ 12 && 1 ≤ dd && dd ≤ daysInMonth y m
              && h ≤ 23 && mi ≤ 59 && sec ≤ 59 then
            some (y, m)
          else none
        | _, _, _, _, _ => none
      else none
    | _, _ => none
  | _ => none

/-! ## Data model

JSON scalar values occurring in a record's `lastmod` field: either an
epoch-milliseconds integer (the original `output.json` encoding) or a
string (the `"YYYY-MM-DD HH:MM:SS UTC"` encoding). -/

/-- A `lastmod` value as read from JSON. -/
inductive PyVal where
  | str (s : String)
  | num (n : Int)
deriving DecidableEq

/-- Python truthiness of a `lastmod` value. -/
def PyVal.truthy : PyVal → Bool
  | .str s => pyTruthyStr s
  | .num n => n != 0

/-- One element of the resolver-output JSON array, restricted to the
fields read by `ArticleScraper.load_article_urls` and the temporal
classifiers (`loc`, `lastmod`, `sitemap`, `errors`, `image_loc`);
`none` models an absent key. -/
structure SitemapItem where
  loc : Option String
  lastmod : Option PyVal
  sitemap : Option String
  errors : Option String
  image_loc : Option String
deriving DecidableEq

/-! ## Temporal classifier -/

/-- Method 1 of `ArticleScraper._extract_article_year`: if
`'archive-' in sitemap`, take `sitemap.split('archive-')[1].split('-')[0]`
and convert it with `int`; `none` covers both an absent `archive-`
marker and an `int` conversion failure (`except (IndexError, ValueError):
pass`). -/
def extractYearFromSitemap (sitemap : String) : Option Int :=
  match pySplit sitemap "archive-" with
  | _ :: after :: _ => pyInt? ((pySplit after "-").headD "")
  | _ => none

/-- Method 1 of `DateExtractor.extract_year_month`: year from
`parts[0]`, month from `parts[1].split('.')[0]` when a second part
exists (else `None`); an `int` failure on either field abandons the
whole method (`except (IndexError, ValueError): pass`). -/
def extractYMFromSitemap (sitemap : String) : Option (Int × Option Int) :=
  match pySplit sitemap "archive-" with
  | _ :: after :: _ =>
    match pySplit after "-" with
    | [] => none
    | [y0] =>
      match pyInt? y0 with
      | some y => some (y, none)
      | none => none
    | y0 :: m0 :: _ =>
      match pyInt? y0, pyInt? ((pySplit m0 ".").headD "") with
      | some y, some m => some (y, some m)
      | _, _ => none
  | _ => none

/-- Method 2 of `ArticleScraper._extract_article_year`: the `lastmod`
branch.  A string containing `"UTC"` goes through `strptime` after
removing every `" UTC"`; any other string must convert with `int`;
a number is fed to `datetime.fromtimestamp(ts / 1000)` (naive, hence
evaluated at the process-local offset `tzOff` seconds).  Any failure
is swallowed by `except (ValueError, OSError, TypeError)` and yields
`none`. -/
def lastmodYear (tzOff : Int) : PyVal → Option Int
  | .str s =>
    if pyContains s "UTC" then
      (strptimeYmdHms? (pyReplace s " UTC" "")).map Prod.fst
    else
      match pyInt? s with
      | some n => (epochMsYearMonth? tzOff n).map Prod.fst
      | none => none
  | .num n => (epochMsYearMonth? tzOff n).map Prod.fst

/-- `ArticleScraper._extract_article_year`: sitemap-path year first,
then the `lastmod` fallback chain, else `None`. -/
def extract_article_year (tzOff : Int) (item : SitemapItem) : Option Int :=
  match extractYearFromSitemap (item.sitemap.getD "") with
  | some y => some y
  | none =>
    match item.lastmod with
    | some v => if v.truthy then lastmodYear tzOff v else none
    | none => none

/-- `DateExtractor.parse_timestamp`, reduced to the (year, month) pair
used by `extract_year_month`.  `dparse` models the external
`dateutil.parser.parse` fallback for strings without `"UTC"`; numeric
timestamps use `tz=timezone.utc` explicitly in this chain.  All parse
failures are swallowed and yield `none`. -/
def parse_timestamp (dparse : String → Option (Int × Int)) (v : PyVal) : Option (Int × Int) :=
  if !v.truthy then none
  else
    match v with
    | .str s =>
      if pyContains s "UTC" then strptimeYmdHms? (pyReplace s " UTC" "")
      else dparse s
    | .num n => epochMsYearMonth? 0 n

/-- `DateExtractor.extract_year_month`: sitemap-path naming first, then
`parse_timestamp` on `lastmod`, else `(None, None)`. -/
def extract_year_month (dparse : String → Option (Int × Int)) (item : SitemapItem) :
    Option Int × Option Int :=
  match extractYMFromSitemap (item.sitemap.getD "") with
  | some (y, m) => (some y, m)
  | none =>
    match item.lastmod with
    | some v =>
      if v.truthy then
        match parse_timestamp dparse v with
        | some (y, m) => (some y, some m)
        | none => (none, none)
      else (none, none)
    | none => (none, none)

/-- `ArticleScraper._parse_article_date`: `lastmod` as epoch
milliseconds (strings must pass `int`, so the `" UTC"` encoding always
fails here), validated through `datetime.fromtimestamp`.  The returned
naive datetime is represented by its epoch-millisecond value. -/
def parse_article_date (tzOff : Int) (item : SitemapItem) : Option Int :=
  match item.lastmod with
  | some v =>
    if v.truthy then
      match v with
      | .str s =>
        match pyInt? s with
        | some n => if (epochMsYearMonth? tzOff n).isSome then some n else none
        | none => none
      | .num n => if (epochMsYearMonth? tzOff n).isSome then some n else none
    else none
  | none => none

/-! ## Task loading (`ArticleScraper.load_article_urls`) -/

/-- The article-info dictionary built for each retained record. -/
structure Article where
  url : String
  year : Int
  article_date : Option Int
  lastmod : Option PyVal
  sitemap : Option String
  has_image : Bool
deriving DecidableEq

/-- The dictionary literal appended for a retained record. -/
def mkArticle (tzOff : Int) (item : SitemapItem) (y : Int) : Article :=
  ⟨item.loc.getD "", y, parse_article_date tzOff item, item.lastmod, item.sitemap,
    pyTruthyOptStr item.image_loc⟩

/-- Stable descending insertion step: `x` (which originates earlier in
the input than everything already inserted) is placed before the first
element whose key is not greater than `key x`. -/
def insertDesc (key : α → Int) (x : α) : List α → List α
  | [] => [x]
  | y :: ys => if key x < key y then y :: insertDesc key x ys else x :: y :: ys

/-- The stable descending sort, modelling Python's
`list.sort(key=..., reverse=True)` (Timsort is stable, and `reverse=True`
keeps ties in original order; a stable descending sort is unique as a
function, so insertion sort is extensionally the same). -/
def sortDescBy (key : α → Int) : List α → List α
  | [] => []
  | x :: xs => insertDesc key x (sortDescBy key xs)

/-- The trailing `if limit: articles = articles[:limit]`: `None` and `0`
are falsy, so no truncation happens for them. -/
def applyLimit (limit : Option Int) (xs : List α) : List α :=
  match limit with
  | none => xs
  | some l => if l == 0 then xs else pySliceTo l xs

/-- The filtering loop of `load_article_urls`: skip records without a
truthy `loc` or with a truthy `errors` marker, derive the year, and keep
the record when the year is truthy (non-zero) and at least `min_year`. -/
def filteredArticles (tzOff : Int) (raw : List SitemapItem) (min_year : Int) : List Article :=
  raw.filterMap fun item =>
    if !pyTruthyOptStr item.loc || pyTruthyOptStr item.errors then none
    else
      match extract_article_year tzOff item with
      | some y => if y != 0 && min_year ≤ y then some (mkArticle tzOff item y) else none
      | none => none

/-- `ArticleScraper.load_article_urls`, given the already-loaded JSON
array `raw` (the `load_json` boundary is modelled separately): bail out
on a falsy (empty) array, filter, sort by year descending (stable), and
apply the truthy `limit` slice. -/
def load_article_urls (tzOff : Int) (raw : List SitemapItem) (min_year : Int)
    (limit : Option Int) : List Article :=
  if raw.isEmpty then []
  else applyLimit limit (sortDescBy (fun a => a.year) (filteredArticles tzOff raw min_year))

/-- Modelled from the claim's words (C6, amended): discard `ErrorRecord`s
and records without a url, derive the year, retain exactly the records
with non-zero derived year `≥ min_year`, stable-sort descending by year,
then truncate.  `load_article_urls` is proved equal to this pipeline. -/
def load_spec (tzOff : Int) (raw : List SitemapItem) (min_year : Int)
    (limit : Option Int) : List Article :=
  applyLimit limit (sortDescBy (fun a => a.year)
    (raw.filterMap fun item =>
      if pyTruthyOptStr item.loc && !pyTruthyOptStr item.errors then
        match extract_article_year tzOff item with
        | some y => if min_year ≤ y && y != 0 then some (mkArticle tzOff item y) else none
        | none => none
      else none))

/-! ## Article acquisition scheduler (`ArticleScraper.scrape_articles`)

The rendering API and the newspaper4k extractor are opaque
collaborators, modelled as environment functions.  Wall-clock fields
(`scraped_at`) and the pass-through extraction payload that no claim
reads (`authors`, `publish_date`, `top_image`, `summary`) are omitted
from the result record. -/

/-- Response of the Node.js `/scrape` call as seen by
`scrape_article_html`: `none` models a request exception or a non-200
status (both return `None`); otherwise the decoded JSON body. -/
structure ApiResponse where
  success : Bool
  html : String
  error : Option String

/-- Fields produced by `TextExtractor.extract_from_html`; `none` for the
whole record models falsy extraction data. -/
structure Extracted where
  title : String
  text : String
  text_length : Nat

/-- The external collaborators of one scheduler run. -/
structure ScrapeEnv where
  api : String → Option ApiResponse
  extract : String → String → Option Extracted

/-- The result dictionary built by `_create_successful_result` /
`_create_failed_result`. -/
structure PyResult where
  url : String
  article_date : Option Int
  success : Bool
  title : Option String
  text : Option String
  text_length : Option Nat
  error : Option String
  error_details : Option String
deriving DecidableEq

/-- `ArticleScraper._create_failed_result`. -/
def create_failed_result (a : Article) (error details : String) : PyResult :=
  ⟨a.url, a.article_date, false, none, none, none, some error, some details⟩

/-- `ArticleScraper._create_successful_result`. -/
def create_successful_result (a : Article) (e : Extracted) : PyResult :=
  ⟨a.url, a.article_date, true, some e.title, some e.text, some e.text_length, none, none⟩

/-- First 100 characters, Python's `s[:100]`. -/
def pyFirst100 (s : String) : String :=
  (s.data.take 100).asString

/-- `ArticleScraper.process_single_article`: fetch rendered HTML through
the API, reject a missing/failed response or empty HTML, extract text,
reject trivial extractions (falsy data, the `'No text extracted'`
placeholder, or a `'Failed to extract text:'` prefix), and build exactly
one result either way.  The trailing `except Exception` never fires in
this model because the collaborators are total functions. -/
def process_single_article (env : ScrapeEnv) (a : Article) : PyResult :=
  match env.api a.url with
  | none => create_failed_result a "Failed to get HTML from API" "No API response"
  | some resp =>
    if !resp.success then
      create_failed_result a "Failed to get HTML from API" (resp.error.getD "Unknown API error")
    else if !pyTruthyStr resp.html then
      create_failed_result a "Empty HTML content from API" ""
    else
      match env.extract resp.html a.url with
      | none =>
        create_failed_result a "Failed to extract meaningful text with newspaper4k"
          "No extraction data"
      | some ex =>
        if ex.text == "No text extracted"
            || leadsWith "Failed to extract text:".data ex.text.data then
          create_failed_result a "Failed to extract meaningful text with newspaper4k"
            ("Text: " ++ pyFirst100 ex.text ++ "...")
        else create_successful_result a ex

/-- Outcome of `future.result()` for one submitted task: the result the
worker returned, or the exception the future raised. -/
inductive TaskOutcome where
  | completed (r : PyResult)
  | raised (e : String)

/-- `ArticleScraper.scrape_articles`: one future per submitted article,
drained in completion order (`order`, a permutation of `articles`);
a raised future is converted to a failed result by the `except` arm.
Periodic `save_checkpoint` calls and the inter-task delay do not touch
the accumulated `results` list and are not modelled here. -/
def scrape_articles (run : Article → TaskOutcome) (articles order : List Article) :
    List PyResult :=
  if articles.isEmpty then []
  else
    order.map fun a =>
      match run a with
      | .completed r => r
      | .raised e => create_failed_result a "Task execution failed" e

/-! ## Sitemap resolver (`SitemapScraper`)

The XML documents behind each URL are abstracted into an environment:
a sitemap index is its list of child `<loc>` URLs, a leaf sitemap its
list of entry `<loc>` URLs in document order.  Fetch-or-parse failure is
`none`.  The bounded worker pool of `_process_sitemap_index` is modelled
by a sequential linearization (the claims proved below are insensitive
to completion order), and the unbounded recursion by an explicit fuel
parameter: fuel `0` stands for a recursion that has not terminated. -/

/-- A fetched-and-parsed sitemap document. -/
inductive SitemapDoc where
  | index (children : List String)
  | leaf (locs : List String)
deriving DecidableEq

/-- A flattened sitemap record: entry url plus originating sitemap url
(the `sitemap` column attached in `scrape_sitemap`). -/
structure SitemapRec where
  url : String
  sitemap : String
deriving DecidableEq

/-- Insertion-ordered key set of a Python dict built by repeated
`data[key] = ...` assignment, as in `_parse_sitemap_xml`: a duplicate
`<loc>` keeps its first position (and contributes no second row). -/
def pyDictKeys (ls : List String) : List String :=
  ls.foldl (fun acc k => if k ∈ acc then acc else acc ++ [k]) []

/-- `SitemapScraper.scrape_sitemap` composed with
`_process_sitemap_index`, indexed by fuel.  Returns the trace of fetched
sitemap URLs (every `_fetch_sitemap_content` attempt) together with the
flattened records.  A fetch or XML-parse failure yields an empty frame;
an index dispatches each child `<loc>` except one equal to the index's
own URL (the logged self-reference skip); a leaf produces one record
per distinct `<loc>`, tagged with the leaf's URL. -/
def scrape_sitemap_fuel (env : String → Option SitemapDoc) :
    Nat → String → List String × List SitemapRec
  | 0, _ => ([], [])
  | fuel + 1, url =>
    match env url with
    | none => ([url], [])
    | some (.leaf locs) => ([url], (pyDictKeys locs).map fun u => ⟨u, url⟩)
    | some (.index children) =>
      let kids := children.filter fun c => c != url
      let sub := kids.map (scrape_sitemap_fuel env fuel)
      (url :: (sub.map Prod.fst).flatten, (sub.map Prod.snd).flatten)

/-- Outcome of `GzipFile(...).read()` on a fetched body:
decompressed content, `gzip.BadGzipFile` (bad magic number), or any
other decompression exception (`EOFError`, `zlib.error`, ...). -/
inductive GzipOut where
  | ok (content : String)
  | badGzip
  | otherError (e : String)
deriving DecidableEq

/-- Network and gzip collaborators of `_fetch_sitemap_content`:
`response url = none` models `urlopen`/`read` raising. -/
structure FetchEnv where
  response : String → Option String
  gunzip : String → GzipOut

/-- `SitemapScraper._fetch_sitemap_content`: URLs ending in `xml.gz` are
read through `GzipFile`; only `BadGzipFile` triggers the logged re-fetch
as plain XML, while every other exception reaches the outer
`except Exception` and returns `None`.  Plain URLs are read directly. -/
def fetch_sitemap_content (env : FetchEnv) (sitemap_url : String) : Option String :=
  if pyEndsWith sitemap_url "xml.gz" then
    match env.response sitemap_url with
    | none => none
    | some body =>
      match env.gunzip body with
      | .ok c => some c
      | .badGzip => env.response sitemap_url
      | .otherError _ => none
  else env.response sitemap_url

/-! ## Checkpoint / result store (`FileHandler`) -/

/-- File-system operations performed by `FileHandler.save_json`. -/
inductive FsOp where
  | mkdirParents (dir : String)
  | truncate (path : String)
  | write (path : String) (content : String)
  | rename (src dst : String)
deriving DecidableEq

/-- Is this operation a rename? -/
def FsOp.isRename : FsOp → Bool
  | .rename _ _ => true
  | _ => false

/-- A file-system state: association list from path to content, newest
binding first. -/
def FsState := List (String × String)

/-- Content of a path in a state. -/
def fsGet (fs : FsState) (p : String) : Option String :=
  match fs with
  | [] => none
  | (q, c) :: rest => if q == p then some c else fsGet rest p

/-- Effect of one operation on a state.  `open(path, 'w')` truncates the
file to empty; each write appends to the current content; a rename moves
the source's content to the destination. -/
def applyFsOp (fs : FsState) : FsOp → FsState
  | .mkdirParents _ => fs
  | .truncate p => (p, "") :: fs
  | .write p c => (p, (fsGet fs p).getD "" ++ c) :: fs
  | .rename src dst =>
    match fsGet fs src with
    | some c => (dst, c) :: (src, "") :: fs
    | none => fs

/-- Every state of path `p` a concurrent reader can observe while the
operations run, including the initial and final ones. -/
def observableContents (init : FsState) (ops : List FsOp) (p : String) : List (Option String) :=
  (ops.scanl applyFsOp init).map (fun fs => fsGet fs p)

/-- Everything up to the last `/` (`Path.parent`, `"."` for a bare
file name). -/
def pathParent (p : String) : String :=
  match (pySplit p "/").dropLast with
  | [] => "."
  | parts => String.intercalate "/" parts

/-- `Path.stem`: final component without its last suffix (a lone leading
dot is not a suffix). -/
def pathStem (p : String) : String :=
  let base := (pySplit p "/").getLastD p
  match pySplit base "." with
  | [] => base
  | [_] => base
  | ["", _] => base
  | parts => String.intercalate "." parts.dropLast

/-- `FileHandler.save_json` as the sequence of file-system operations it
performs: create the parent directory, then `open(filepath, 'w')`
(truncating the file in place) and stream the serialized JSON into it.
`serialized` is the `json.dump` output for the cleaned data; there is no
temporary file and no rename. -/
def save_json_ops (filepath serialized : String) : List FsOp :=
  [.mkdirParents (pathParent filepath), .truncate filepath, .write filepath serialized]

/-- The checkpoint path derived by `FileHandler.save_checkpoint`:
`filepath.parent / f"checkpoint_{filepath.stem}.json"`. -/
def checkpointPath (filepath : String) : String :=
  pathParent filepath ++ "/checkpoint_" ++ pathStem filepath ++ ".json"

/-- `FileHandler.save_checkpoint`: delegate to `save_json` at the
derived checkpoint path. -/
def save_checkpoint_ops (filepath serialized : String) : List FsOp :=
  save_json_ops (checkpointPath filepath) serialized

/-- A necessary syntactic condition for a string to be a complete JSON
array: after trimming outer whitespace it starts with `[` and ends with
`]`.  The empty string fails it. -/
def jsonArrayShaped (s : String) : Bool :=
  match stripEnds s.data with
  | [] => false
  | c :: cs => c == '[' && (c :: cs).getLast! == ']'

/-- The file-system backing `FileHandler.load_json`:
`files p = none` models `not filepath.exists()`. -/
structure JsonFs where
  files : String → Option String

/-- `FileHandler.load_json`: `None` when the file does not exist, the
parsed value on success, and `None` again when `json.load` raises (the
blanket `except Exception`).  `parse` abstracts `json.load`; no
exception escapes this boundary. -/
def load_json {α : Type} (parse : String → Option α) (fs : JsonFs) (filepath : String) :
    Option α :=
  match fs.files filepath with
  | none => none
  | some content =>
    match parse content with
    | some v => some v
    | none => none

/-- One element of a result list fed to `analyze_json_data`, restricted
to the fields it reads. -/
structure ResultItem where
  success : Bool
  text : Option String
deriving DecidableEq

/-- Banker's rounding of a rational to an integer (Python's `round`). -/
def roundHalfEvenZ (q : ℚ) : ℤ :=
  let f := ⌊q⌋
  if q - f < 1 / 2 then f
  else if (1 : ℚ) / 2 < q - f then f + 1
  else if f % 2 == 0 then f else f + 1

/-- Python's `round(x, 1)` on the exact rational value (the float
computes the same expression; both sides of the claim use this very
function, so the comparison is representation-independent). -/
def pyRound1 (q : ℚ) : ℚ :=
  (roundHalfEvenZ (q * 10) : ℚ) / 10

/-- Return value of `analyze_json_data`: the bare `{"total_count": 0}`
dictionary for falsy input, or the full statistics dictionary. -/
inductive AnalyzeResult where
  | emptyRes
  | stats (total_count successful failed : Nat) (success_rate : ℚ)
      (total_characters average_chars_per_article : Nat)
deriving DecidableEq

/-- The `total_count` entry of either return shape. -/
def AnalyzeResult.totalCount : AnalyzeResult → Nat
  | .emptyRes => 0
  | .stats t _ _ _ _ _ => t

/-- The `average_chars_per_article` entry (0 for the empty shape). -/
def AnalyzeResult.avgChars : AnalyzeResult → Nat
  | .emptyRes => 0
  | .stats _ _ _ _ _ a => a

/-- The `successful` entry (0 for the empty shape). -/
def AnalyzeResult.successfulCount : AnalyzeResult → Nat
  | .emptyRes => 0
  | .stats _ s _ _ _ _ => s

/-- The `total_characters` entry (0 for the empty shape). -/
def AnalyzeResult.totalChars : AnalyzeResult → Nat
  | .emptyRes => 0
  | .stats _ _ _ _ t _ => t

/-- `FileHandler.analyze_json_data`: falsy input short-circuits to
`{"total_count": 0}`; otherwise counts, the rounded success rate, and
text statistics taken over the successful items with truthy `text`
(integer floor division for the average, 0 when no such item exists).
Nothing in the body can raise on these typed records, so the
`except` arm is dead. -/
def analyze_json_data (data : List ResultItem) : AnalyzeResult :=
  if data.isEmpty then .emptyRes
  else
    let total_count := data.length
    let successful := (data.filter fun i => i.success).length
    let failed := total_count - successful
    let text_lengths :=
      (data.filter fun i => i.success && pyTruthyOptStr i.text).map
        fun i => (i.text.getD "").length
    let total_chars := text_lengths.sum
    let avg_chars := if text_lengths.isEmpty then 0 else total_chars / text_lengths.length
    .stats total_count successful failed
      (if 0 < total_count then pyRound1 ((successful : ℚ) / (total_count : ℚ) * 100) else 0)
      total_chars avg_chars

/-! ## Concrete fixtures for counterexamples and witnesses -/

/-- A two-sitemap cycle: index `A` lists `B`, index `B` lists `A`. -/
def envCycle : String → Option SitemapDoc := fun u =>
  if u == "https://x/A.xml" then some (.index ["https://x/B.xml"])
  else if u == "https://x/B.xml" then some (.index ["https://x/A.xml"])
  else none

/-- A purely self-referential index: `S` lists only itself (twice). -/
def envSelfLoop : String → Option SitemapDoc := fun u =>
  if u == "https://x/S.xml" then some (.index ["https://x/S.xml", "https://x/S.xml"])
  else none

/-- An index of two leaf sitemaps that both contain the url `U`. -/
def envOverlap : String → Option SitemapDoc := fun u =>
  if u == "https://x/I.xml" then some (.index ["https://x/S1.xml", "https://x/S2.xml"])
  else if u == "https://x/S1.xml" then some (.leaf ["https://x/U"])
  else if u == "https://x/S2.xml" then some (.leaf ["https://x/U"])
  else none

/-- A single leaf sitemap with a duplicated `<loc>`. -/
def envLeafDup : String → Option SitemapDoc := fun u =>
  if u == "https://x/L.xml" then some (.leaf ["https://x/a", "https://x/b", "https://x/a"])
  else none

/-- Two concrete scheduler tasks. -/
def taskA : Article := ⟨"https://x/art1", 2019, none, none, some "archive-2019-3", false⟩

/-- Second concrete scheduler task. -/
def taskB : Article := ⟨"https://x/art2", 2020, none, none, some "archive-2020-1", false⟩

/-- A run function whose first task completes and whose second future
raises. -/
def runMixed : Article → TaskOutcome := fun a =>
  if a.url == "https://x/art1" then
    .completed (create_successful_result a ⟨"T", "body text", 9⟩)
  else .raised "boom"

/-- The claim C5 record: sitemap path `archive-2019-3` and a `lastmod`
of `2020-01-01 00:00:00 UTC`. -/
def itemPathVsLastmod : SitemapItem :=
  ⟨some "https://x/a", some (.str "2020-01-01 00:00:00 UTC"), some "archive-2019-3", none, none⟩

/-- A record whose derived year is 0 (from sitemap path `archive-0-1`),
with a url and no errors marker. -/
def itemYearZero : SitemapItem :=
  ⟨some "https://x/z", none, some "archive-0-1", none, none⟩

/-- A compressed-sitemap fetch whose payload raises a non-`BadGzipFile`
decompression error (`zlib.error`). -/
def envCorruptGzip : FetchEnv :=
  ⟨fun u => if u == "https://x/s.xml.gz" then some "CORRUPT" else none,
   fun b => if b == "CORRUPT" then .otherError "zlib.error" else .badGzip⟩

/-- A compressed-sitemap fetch whose payload is plain XML (bad gzip
magic number, `BadGzipFile`). -/
def envPlainAsGzip : FetchEnv :=
  ⟨fun u => if u == "https://x/p.xml.gz" then some "PLAINXML" else none,
   fun _ => .badGzip⟩

/-- A toy `json.load` that only accepts the literal `[]`. -/
def parseToy : String → Option (List Nat) := fun s =>
  if s == "[]" then some [] else none

/-- A file system with one well-formed file, one malformed file, and a
missing path. -/
def fsToy : JsonFs :=
  ⟨fun p =>
    if p == "data.json" then some "[]"
    else if p == "bad.json" then some "not json"
    else none⟩

/-- Two successful results, one of them without any text field. -/
def dataAvgSkew : List ResultItem :=
  [⟨true, some "abcd"⟩, ⟨true, none⟩]

/-- One success with text, one failure. -/
def dataOneEach : List ResultItem :=
  [⟨true, some "ab"⟩, ⟨false, none⟩]

/-! ## Helper lemmas -/

/-- Counting a predicate and its negation exhausts the list. -/
theorem countP_not_add (p : α → Bool) (l : List α) :
    l.countP p + l.countP (fun a => !p a) = l.length := by
  induction l with
  | nil => rfl
  | cons x xs ih => by_cases hx : p x <;> simp [List.countP_cons, hx] <;> omega

/-- The fold underlying `pyDictKeys` preserves distinctness of the
accumulated key list. -/
theorem pyDictKeys_foldl_nodup (ls : List String) (acc : List String) (h : acc.Nodup) :
    (ls.foldl (fun acc k => if k ∈ acc then acc else acc ++ [k]) acc).Nodup := by
  induction ls generalizing acc with
  | nil => simpa using h
  | cons k ks ih =>
    simp only [List.foldl_cons]
    by_cases hk : k ∈ acc
    · simpa [hk] using ih acc h
    · have : (acc ++ [k]).Nodup := by
        simp [List.nodup_append, h, hk]
      simpa [hk] using ih (acc ++ [k]) this
/-- Keys of the `loc`-indexed dictionary built by `_parse_sitemap_xml`
are distinct. -/
theorem pyDictKeys_nodup (ls : List String) : (pyDictKeys ls).Nodup :=
  pyDictKeys_foldl_nodup ls [] List.nodup_nil

/-- Inserting into the stable descending order is a permutation. -/
theorem insertDesc_perm (key : α → Int) (x : α) (l : List α) :
    (insertDesc key x l).Perm (x :: l) := by
  induction l with
  | nil => simp [insertDesc]
  | cons y ys ih =>
    simp only [insertDesc]
    by_cases h : key x < key y
    · simpa [h] using (ih.cons y).trans (List.Perm.swap x y ys)
    · simp [h]

/-- Stable descending insertion preserves descending order. -/
theorem insertDesc_pairwise (key : α → Int) (x : α) (l : List α)
    (h : l.Pairwise fun a b => key b ≤ key a) :
    (insertDesc key x l).Pairwise fun a b => key b ≤ key a := by
  induction l with
  | nil => simp [insertDesc]
  | cons y ys ih =>
    rcases List.pairwise_cons.mp h with ⟨hy, hys⟩
    simp only [insertDesc]
    by_cases hlt : key x < key y
    · rw [if_pos hlt]
      refine List.pairwise_cons.mpr ⟨?_, ih hys⟩
      intro z hz
      rcases List.mem_cons.mp ((insertDesc_perm key x ys).mem_iff.mp hz) with hz | hz
      · exact hz ▸ le_of_lt hlt
      · exact hy z hz
    · rw [if_neg hlt]
      refine List.pairwise_cons.mpr ⟨?_, h⟩
      intro z hz
      rcases List.mem_cons.mp hz with hz | hz
      · exact hz ▸ le_of_not_lt hlt
      · exact le_trans (hy z hz) (le_of_not_lt hlt)

/-- Sorted output: `sortDescBy` is descending in the key. -/
theorem sortDescBy_pairwise (key : α → Int) (l : List α) :
    (sortDescBy key l).Pairwise fun a b => key b ≤ key a := by
  induction l with
  | nil => simp [sortDescBy]
  | cons x xs ih => exact insertDesc_pairwise key x _ ih

/-- Insertion does not disturb the subsequence of any fixed key value:
the inserted element lands in front of exactly the elements with the
same key. -/
theorem insertDesc_filter_eq (key : α → Int) (y : Int) (x : α) (l : List α) :
    (insertDesc key x l).filter (fun a => key a == y)
      = if key x == y then x :: l.filter (fun a => key a == y)
        else l.filter (fun a => key a == y) := by
  induction l with
  | nil => by_cases h : key x = y <;> simp [insertDesc, h]
  | cons z zs ih =>
    simp only [insertDesc]
    by_cases hlt : key x < key z
    · rw [if_pos hlt]
      by_cases hx : key x = y
      · have hz : ¬ key z = y := by omega
        simp [List.filter_cons, hx, hz, ih]
      · by_cases hz : key z = y <;> simp [List.filter_cons, hx, hz, ih]
    · rw [if_neg hlt]
      by_cases hx : key x = y <;> simp [List.filter_cons, hx]

/-- Stability: sorting descending by key keeps the elements of each key
value in their original relative order. -/
theorem sortDescBy_filter_eq (key : α → Int) (y : Int) (l : List α) :
    (sortDescBy key l).filter (fun a => key a == y) = l.filter (fun a => key a == y) := by
  induction l with
  | nil => rfl
  | cons x xs ih =>
    simp only [sortDescBy, insertDesc_filter_eq]
    by_cases hx : key x = y <;> simp [List.filter_cons, hx, ih]

/-- `sortDescBy` permutes its input. -/
theorem sortDescBy_perm (key : α → Int) (l : List α) :
    (sortDescBy key l).Perm l := by
  induction l with
  | nil => rfl
  | cons x xs ih => exact (insertDesc_perm key x _).trans (ih.cons x)

/-- The truthy-limit slice only ever takes a prefix. -/
theorem applyLimit_sublist (limit : Option Int) (xs : List α) :
    (applyLimit limit xs).Sublist xs := by
  cases limit with
  | none => exact List.Sublist.refl xs
  | some l =>
    simp only [applyLimit]
    by_cases h : l == 0
    · rw [if_pos h]
    · rw [if_neg h]
      unfold pySliceTo
      by_cases h0 : (0 : Int) ≤ l
      · rw [if_pos h0]; exact List.take_sublist _ _
      · rw [if_neg h0]; exact List.take_sublist _ _

/-- The truthy-limit slice of an empty list is empty. -/
theorem applyLimit_nil (limit : Option Int) :
    applyLimit limit ([] : List α) = [] :=
  List.sublist_nil.mp (applyLimit_sublist limit [])

/-! ## Claim C1 -/

/-- Claim C1, counterexample: while `save_json` (and through it
`save_checkpoint`) runs, a concurrent reader of the destination file can
observe the empty content left by `open(filepath, 'w')` — which is not a
complete JSON array — and no rename is ever performed, so the write is
not an atomic temp-file-plus-rename replace as the claim states. -/
theorem spec2proof_C1_counterexample :
    some "" ∈ observableContents [] (save_json_ops "out/results.json" "[]") "out/results.json"
  ∧ jsonArrayShaped "" = false
  ∧ jsonArrayShaped "[]" = true
  ∧ ((save_json_ops "out/results.json" "[]").all fun op => !op.isRename) = true
  ∧ checkpointPath "out/results.json" = "out/checkpoint_results.json"
  ∧ some "" ∈ observableContents [] (save_checkpoint_ops "out/results.json" "[]")
      "out/checkpoint_results.json" := by
  decide

/-- Claim C1, amended: `save_json` and `save_checkpoint` write the
serialized JSON directly into the destination file — parent `mkdir`,
in-place truncation, then the streamed dump, with no temporary file and
no rename — so the final on-disk content is the full serialization, but
a concurrent reader can observe the intermediate empty file (for any
prior state of the file system). -/
theorem spec2proof_C1 (filepath serialized : String) (init : FsState) :
    ((save_json_ops filepath serialized).all fun op => !op.isRename) = true
  ∧ ((save_checkpoint_ops filepath serialized).all fun op => !op.isRename) = true
  ∧ observableContents init (save_json_ops filepath serialized) filepath
      = [fsGet init filepath, fsGet init filepath, some "", some serialized]
  ∧ observableContents init (save_checkpoint_ops filepath serialized) (checkpointPath filepath)
      = [fsGet init (checkpointPath filepath), fsGet init (checkpointPath filepath),
          some "", some serialized] := by
  refine ⟨rfl, rfl, ?_, ?_⟩ <;>
    simp [observableContents, save_checkpoint_ops, save_json_ops, applyFsOp, fsGet]

/-! ## Claim C2 -/

/-- Claim C2, counterexample: in the two-element cycle `A → B → A`, the
guard in `_process_sitemap_index` compares children only against the
immediately fetching sitemap's URL, so `B`'s child `A` — the URL of
`A`'s own ancestor — is re-fetched: the fetch trace visits `A` twice
(and the recursion does not terminate; the trace shown is the prefix cut
off by exhausted fuel). -/
theorem spec2proof_C2_counterexample :
    (scrape_sitemap_fuel envCycle 3 "https://x/A.xml").fst
      = ["https://x/A.xml", "https://x/B.xml", "https://x/A.xml"]
  ∧ ((scrape_sitemap_fuel envCycle 3 "https://x/A.xml").fst.count "https://x/A.xml" = 2) := by
  decide

/-- Claim C2, amended: a child URL equal to the immediately fetching
sitemap index's own URL is skipped and never dispatched, so a purely
self-referential index resolves — with a single fetch and an empty
record set — for every recursion budget; child URLs equal to more
distant ancestors are not guarded. -/
theorem spec2proof_C2 (env : String → Option SitemapDoc) (url : String)
    (children : List String) (fuel : Nat)
    (h : env url = some (.index children)) (hall : ∀ c ∈ children, c = url) :
    scrape_sitemap_fuel env (fuel + 1) url = ([url], []) := by
  have hf : children.filter (fun c => c != url) = [] := by
    rw [List.filter_eq_nil_iff]
    intro c hc
    simp [hall c hc]
  simp [scrape_sitemap_fuel, h, hf]

/-- Claim C2, witness for the amended theorem at a concrete
self-referential index. -/
theorem spec2proof_C2_witness :
    envSelfLoop "https://x/S.xml" = some (.index ["https://x/S.xml", "https://x/S.xml"])
  ∧ scrape_sitemap_fuel envSelfLoop (4 + 1) "https://x/S.xml" = (["https://x/S.xml"], []) :=
  ⟨rfl,
    spec2proof_C2 envSelfLoop "https://x/S.xml" ["https://x/S.xml", "https://x/S.xml"] 4
      rfl (by decide)⟩

/-! ## Claim C3 -/

/-- Claim C3, counterexample: two leaf sitemaps sharing the url `U`
resolve to a flattened record set that contains `U` twice —
`_process_sitemap_index` concatenates child frames without any
cross-sitemap de-duplication — so `SitemapRecord.url` is not unique in
the flattened output. -/
theorem spec2proof_C3_counterexample :
    ((scrape_sitemap_fuel envOverlap 2 "https://x/I.xml").snd.map SitemapRec.url
      = ["https://x/U", "https://x/U"])
  ∧ ¬ ((scrape_sitemap_fuel envOverlap 2 "https://x/I.xml").snd.map SitemapRec.url).Nodup := by
  decide

/-- Claim C3, amended: urls are de-duplicated only within a single leaf
sitemap — `_parse_sitemap_xml` keys its row dictionary by `<loc>`, so
one leaf's records have pairwise-distinct urls — while concatenation
across sitemaps preserves duplicates. -/
theorem spec2proof_C3 (env : String → Option SitemapDoc) (url : String)
    (locs : List String) (fuel : Nat) (h : env url = some (.leaf locs)) :
    ((scrape_sitemap_fuel env (fuel + 1) url).snd.map SitemapRec.url).Nodup := by
  simp only [scrape_sitemap_fuel, h, List.map_map]
  have hcomp : (SitemapRec.url ∘ fun u => (⟨u, url⟩ : SitemapRec)) = fun u => u := rfl
  rw [hcomp, List.map_id']
  exact pyDictKeys_nodup locs

/-- Claim C3, witness for the amended theorem at a concrete leaf sitemap
with a duplicated `<loc>`. -/
theorem spec2proof_C3_witness :
    envLeafDup "https://x/L.xml" = some (.leaf ["https://x/a", "https://x/b", "https://x/a"])
  ∧ ((scrape_sitemap_fuel envLeafDup (0 + 1) "https://x/L.xml").snd.map SitemapRec.url).Nodup :=
  ⟨rfl,
    spec2proof_C3 envLeafDup "https://x/L.xml" ["https://x/a", "https://x/b", "https://x/a"] 0 rfl⟩

/-! ## Claim C4 -/

/-- Every worker result carries the url of its task. -/
theorem process_single_article_url (env : ScrapeEnv) (a : Article) :
    (process_single_article env a).url = a.url := by
  unfold process_single_article
  cases env.api a.url with
  | none => rfl
  | some resp =>
    split
    · rfl
    split
    · rfl
    split
    · rfl
    split
    · rfl
    split <;> rfl

/-- Claim C4: for a completed scheduler run over `articles`, drained in
any completion order, the result list has exactly one entry per
submitted task (its multiset of urls is a permutation of the submitted
urls, given that every completed worker result carries its task's url,
as `process_single_article` does), and success count plus failure count
equals the number of submitted tasks. -/
theorem spec2proof_C4 (run : Article → TaskOutcome) (articles order : List Article)
    (h : order.Perm articles)
    (hurl : ∀ a r, run a = .completed r → r.url = a.url) :
    (scrape_articles run articles order).length = articles.length
  ∧ (scrape_articles run articles order).countP (fun r => r.success)
      + (scrape_articles run articles order).countP (fun r => !r.success) = articles.length
  ∧ ((scrape_articles run articles order).map PyResult.url).Perm (articles.map Article.url) := by
  by_cases he : articles.isEmpty
  · have ha : articles = [] := by simpa [List.isEmpty_iff] using he
    subst ha
    have ho : order = [] := h.eq_nil
    subst ho
    simp [scrape_articles]
  · have hlen : (scrape_articles run articles order).length = articles.length := by
      simp [scrape_articles, he, h.length_eq]
    refine ⟨hlen, ?_, ?_⟩
    · rw [countP_not_add]
      exact hlen
    · have hmap : (scrape_articles run articles order).map PyResult.url
          = order.map Article.url := by
        simp only [scrape_articles, if_neg he, List.map_map]
        refine List.map_congr_left ?_
        intro a _
        simp only [Function.comp_apply]
        cases hr : run a with
        | completed r =>
          simp only [hr]
          exact hurl a r hr
        | raised e =>
          simp only [hr]
          rfl
      rw [hmap]
      exact h.map Article.url

/-- Claim C4, witness: two tasks, drained in swapped order, the second
future raising; the run yields two results, one success plus one
failure, covering both task urls. -/
theorem spec2proof_C4_witness :
    (scrape_articles runMixed [taskA, taskB] [taskB, taskA]).length
        = ([taskA, taskB] : List Article).length
  ∧ (scrape_articles runMixed [taskA, taskB] [taskB, taskA]).countP (fun r => r.success)
      + (scrape_articles runMixed [taskA, taskB] [taskB, taskA]).countP (fun r => !r.success)
        = ([taskA, taskB] : List Article).length
  ∧ ((scrape_articles runMixed [taskA, taskB] [taskB, taskA]).map PyResult.url).Perm
      (([taskA, taskB] : List Article).map Article.url) :=
  spec2proof_C4 runMixed [taskA, taskB] [taskB, taskA] (List.Perm.swap taskA taskB [])
    (by
      intro a r hr
      unfold runMixed at hr
      by_cases hc : (a.url == "https://x/art1") = true
      · rw [if_pos hc] at hr
        injection hr with hr
        rw [← hr]
        rfl
      · rw [if_neg hc] at hr
        exact TaskOutcome.noConfusion hr)

/-! ## Claim C5 -/

/-- Claim C5: both year-derivation chains give the originating sitemap
path precedence over `lastmod` — whenever the `archive-…` path parse
succeeds, its year (and, for `extract_year_month`, month) is returned
and the `lastmod` field is never consulted (the conclusion holds for
every `lastmod`, every timezone offset, and every dateutil behaviour). -/
theorem spec2proof_C5 :
    (∀ (tzOff : Int) (item : SitemapItem) (y : Int),
        extractYearFromSitemap (item.sitemap.getD "") = some y →
          extract_article_year tzOff item = some y)
  ∧ (∀ (dparse : String → Option (Int × Int)) (item : SitemapItem) (y : Int) (m : Option Int),
        extractYMFromSitemap (item.sitemap.getD "") = some (y, m) →
          extract_year_month dparse item = (some y, m)) := by
  constructor
  · intro tzOff item y h
    simp [extract_article_year, h]
  · intro dparse item y m h
    simp [extract_year_month, h]

/-- Claim C5, witness: the record with sitemap path `archive-2019-3` and
`lastmod` `2020-01-01 00:00:00 UTC` derives year 2019 (and month 3 in
the `extract_year_month` chain) — the path wins over the lastmod. -/
theorem spec2proof_C5_witness :
    extract_article_year 0 itemPathVsLastmod = some 2019
  ∧ extract_year_month (fun _ => none) itemPathVsLastmod = (some 2019, some 3) :=
  ⟨spec2proof_C5.1 0 itemPathVsLastmod 2019 (by decide),
   spec2proof_C5.2 (fun _ => none) itemPathVsLastmod 2019 (some 3) (by decide)⟩

/-! ## Claim C6 -/

/-- Claim C6, counterexample: the record with sitemap path
`archive-0-1` has a url, no error marker, and a derivable year 0, which
satisfies `year ≥ min_year` for `min_year = 0`; yet `load_article_urls`
drops it, because the code's truthiness test `if year and ...` treats
the derived year 0 as falsy.  The claim's "retains exactly the records
with derived year ≥ min_year" therefore fails as stated. -/
theorem spec2proof_C6_counterexample :
    pyTruthyOptStr itemYearZero.loc = true
  ∧ itemYearZero.errors = none
  ∧ extract_article_year 0 itemYearZero = some 0
  ∧ ((0 : Int) ≤ 0 ∧ load_article_urls 0 [itemYearZero] 0 none = []) := by
  decide

/-- Claim C6, amended: `load_article_urls` equals the claim's pipeline
with one change — the retained records are exactly those with a url, no
errors marker, and a *non-zero* derived year `≥ min_year` — and its
output is sorted descending by year by a stable sort (ties keep their
original relative order), truncated by the truthy limit. -/
theorem spec2proof_C6 (tzOff min_year : Int) (raw : List SitemapItem) (limit : Option Int) :
    load_article_urls tzOff raw min_year limit = load_spec tzOff raw min_year limit
  ∧ (load_article_urls tzOff raw min_year limit).Pairwise (fun a b => b.year ≤ a.year)
  ∧ ∀ y : Int,
      (sortDescBy (fun a => a.year) (filteredArticles tzOff raw min_year)).filter
          (fun a => a.year == y)
        = (filteredArticles tzOff raw min_year).filter (fun a => a.year == y) := by
  have hfm : filteredArticles tzOff raw min_year
      = raw.filterMap fun item =>
          if pyTruthyOptStr item.loc && !pyTruthyOptStr item.errors then
            match extract_article_year tzOff item with
            | some y => if min_year ≤ y && y != 0 then some (mkArticle tzOff item y) else none
            | none => none
          else none := by
    unfold filteredArticles
    refine List.filterMap_congr ?_
    intro item _
    by_cases hl : pyTruthyOptStr item.loc <;> by_cases herr : pyTruthyOptStr item.errors <;>
      cases hy : extract_article_year tzOff item <;>
        simp [hl, herr, hy, Bool.and_comm]
  refine ⟨?_, ?_, fun y => sortDescBy_filter_eq _ y _⟩
  · unfold load_article_urls load_spec
    by_cases he : raw.isEmpty
    · have hr : raw = [] := by simpa [List.isEmpty_iff] using he
      subst hr
      simp [filteredArticles, sortDescBy, applyLimit_nil]
    · rw [if_neg he, hfm]
  · unfold load_article_urls
    by_cases he : raw.isEmpty
    · simp [he]
    · rw [if_neg he]
      exact (sortDescBy_pairwise _ _).sublist (applyLimit_sublist _ _)

/-! ## Claim C7 -/

/-- Claim C7, counterexample: a compressed-sitemap payload whose
decompression raises something other than `BadGzipFile` (here
`zlib.error`) is not retried as plain XML: the inner handler catches
only `BadGzipFile`, so the fetch falls through to the outer
`except Exception` and returns `None` instead of the same bytes. -/
theorem spec2proof_C7_counterexample :
    envCorruptGzip.gunzip "CORRUPT" = .otherError "zlib.error"
  ∧ envCorruptGzip.response "https://x/s.xml.gz" = some "CORRUPT"
  ∧ fetch_sitemap_content envCorruptGzip "https://x/s.xml.gz" = none
  ∧ ¬ fetch_sitemap_content envCorruptGzip "https://x/s.xml.gz" = some "CORRUPT" := by
  decide

/-- Claim C7, amended: on a compressed-sitemap URL, a payload that is
not gzip at all (`BadGzipFile`) is logged and re-read as plain XML, and
the fetch returns the same bytes; any other decompression failure makes
the fetch return `None`.  In both cases no exception propagates past
`_fetch_sitemap_content` (the model is a total function into
`Option`). -/
theorem spec2proof_C7 :
    (∀ (env : FetchEnv) (url body : String),
        pyEndsWith url "xml.gz" = true → env.response url = some body →
          env.gunzip body = .badGzip →
            fetch_sitemap_content env url = some body)
  ∧ (∀ (env : FetchEnv) (url body e : String),
        pyEndsWith url "xml.gz" = true → env.response url = some body →
          env.gunzip body = .otherError e →
            fetch_sitemap_content env url = none) := by
  constructor
  · intro env url body h1 h2 h3
    simp [fetch_sitemap_content, h1, h2, h3]
  · intro env url body e h1 h2 h3
    simp [fetch_sitemap_content, h1, h2, h3]

/-- Claim C7, witness for the amended theorem: a payload with a bad gzip
magic number is returned as plain XML. -/
theorem spec2proof_C7_witness :
    pyEndsWith "https://x/p.xml.gz" "xml.gz" = true
  ∧ envPlainAsGzip.response "https://x/p.xml.gz" = some "PLAINXML"
  ∧ envPlainAsGzip.gunzip "PLAINXML" = .badGzip
  ∧ fetch_sitemap_content envPlainAsGzip "https://x/p.xml.gz" = some "PLAINXML" :=
  ⟨by decide, rfl, rfl,
    spec2proof_C7.1 envPlainAsGzip "https://x/p.xml.gz" "PLAINXML" (by decide) rfl rfl⟩

/-! ## Claim C8 -/

/-- Claim C8, counterexample: `load_json` returns the very same value
(`None`) for a missing file and for a file whose JSON is malformed, so
the two failure signals are not distinguishable from each other at the
return boundary, contrary to the claim (success still returns the parsed
array). -/
theorem spec2proof_C8_counterexample :
    fsToy.files "missing.json" = none
  ∧ fsToy.files "bad.json" = some "not json"
  ∧ parseToy "not json" = none
  ∧ load_json parseToy fsToy "missing.json" = load_json parseToy fsToy "bad.json"
  ∧ load_json parseToy fsToy "data.json" = some [] := by
  decide

/-- Claim C8, amended: `load_json` returns the parsed value on success
and the single failure signal `None` both when the file does not exist
and when parsing raises (the two failure kinds differ only in the logged
message); it is a total function into `Option`, so no exception
propagates past this boundary. -/
theorem spec2proof_C8 {α : Type} (parse : String → Option α) (fs : JsonFs) (filepath : String) :
    load_json parse fs filepath = (fs.files filepath).bind parse := by
  unfold load_json
  cases fs.files filepath with
  | none => rfl
  | some content =>
    dsimp only
    cases hp : parse content with
    | none => simp [hp]
    | some v => simp [hp]

/-! ## Claim C9 -/

/-- A term of a sum over successful items vanishes when the text is
falsy, so restricting the sum to truthy-text items changes nothing. -/
theorem sum_text_lengths_eq (data : List ResultItem) :
    (((data.filter fun i => i.success && pyTruthyOptStr i.text).map
        fun i => (i.text.getD "").length).sum)
      = (((data.filter fun i => i.success).map fun i => (i.text.getD "").length).sum) := by
  induction data with
  | nil => rfl
  | cons x xs ih =>
    by_cases hs : x.success
    · by_cases ht : pyTruthyOptStr x.text
      · simp [List.filter_cons, hs, ht, ih]
      · have ht' : pyTruthyOptStr x.text = false := by
          cases h : pyTruthyOptStr x.text
          · rfl
          · exact absurd h ht
        have hz : (x.text.getD "").length = 0 := by
          cases htx : x.text with
          | none => rfl
          | some s =>
            rw [htx] at ht'
            have hnot : (!s.data.isEmpty) = false := ht'
            have hd : s.data = [] := by
              simpa [List.isEmpty_iff] using hnot
            simp [String.length, hd]
        simp [List.filter_cons, hs, ht', ih, hz]
    · simp [List.filter_cons, hs, ih]

/-- Claim C9, counterexample: on two successful results of which one has
no text, the reported `average_chars_per_article` is 4 — the total
divided by the number of successful results *with non-empty text* — not
the claimed average per successful result, which would be
`4 / 2 = 2`. -/
theorem spec2proof_C9_counterexample :
    (analyze_json_data dataAvgSkew).successfulCount = 2
  ∧ (analyze_json_data dataAvgSkew).totalChars = 4
  ∧ (analyze_json_data dataAvgSkew).avgChars = 4
  ∧ (analyze_json_data dataAvgSkew).totalChars / (analyze_json_data dataAvgSkew).successfulCount
      = 2
  ∧ ¬ (analyze_json_data dataAvgSkew).avgChars
      = (analyze_json_data dataAvgSkew).totalChars
          / (analyze_json_data dataAvgSkew).successfulCount := by
  decide

/-- Claim C9, amended: `analyze_json_data` is a pure aggregation:
`analyze([])` is the bare `total_count = 0` dictionary (no division
happens); on a non-empty list of `N` results with `S` successes it
reports `S`, `N - S`, `round(S / N * 100, 1)`, the total extracted-text
length over the successful results, and the average text length per
successful result *having non-empty text* (0 when there is none). -/
theorem spec2proof_C9 :
    analyze_json_data [] = .emptyRes
  ∧ (analyze_json_data []).totalCount = 0
  ∧ ∀ data : List ResultItem, data ≠ [] →
      analyze_json_data data =
        .stats data.length (data.countP fun i => i.success)
          (data.length - data.countP fun i => i.success)
          (pyRound1 (((data.countP fun i => i.success : Nat) : ℚ) / ((data.length : Nat) : ℚ)
            * 100))
          (((data.filter fun i => i.success).map fun i => (i.text.getD "").length).sum)
          (if (data.countP fun i => i.success && pyTruthyOptStr i.text) = 0 then 0
           else (((data.filter fun i => i.success).map fun i => (i.text.getD "").length).sum)
             / (data.countP fun i => i.success && pyTruthyOptStr i.text)) := by
  refine ⟨rfl, rfl, ?_⟩
  intro data hne
  have he : data.isEmpty = false := by
    simpa [List.isEmpty_iff] using hne
  have hpos : 0 < data.length := List.length_pos.mpr hne
  have havg :
      (if ((data.filter fun i => i.success && pyTruthyOptStr i.text).map
            fun i => (i.text.getD "").length).isEmpty then 0
        else (((data.filter fun i => i.success).map fun i => (i.text.getD "").length).sum)
          / ((data.filter fun i => i.success && pyTruthyOptStr i.text).map
              fun i => (i.text.getD "").length).length)
      = (if (data.filter fun i => i.success && pyTruthyOptStr i.text).length = 0 then 0
        else (((data.filter fun i => i.success).map fun i => (i.text.getD "").length).sum)
          / (data.filter fun i => i.success && pyTruthyOptStr i.text).length) := by
    by_cases hz : (data.filter fun i => i.success && pyTruthyOptStr i.text) = []
    · simp [hz]
    · have h1 : ((data.filter fun i => i.success && pyTruthyOptStr i.text).map
          fun i => (i.text.getD "").length).isEmpty = false := by
        simp [List.isEmpty_iff, hz]
      have h2 : ¬ (data.filter fun i => i.success && pyTruthyOptStr i.text).length = 0 := by
        simpa [List.length_eq_zero] using hz
      simp [h1, h2]
  unfold analyze_json_data
  simp only [he, Bool.false_eq_true, if_false, if_pos hpos]
  rw [List.countP_eq_length_filter, List.countP_eq_length_filter, sum_text_lengths_eq, havg]

/-- Claim C9, witness for the amended theorem: one success with
two-character text plus one failure gives counts 2/1/1, total 2 and
average 2. -/
theorem spec2proof_C9_witness :
    dataOneEach ≠ []
  ∧ analyze_json_data dataOneEach =
      .stats dataOneEach.length (dataOneEach.countP fun i => i.success)
        (dataOneEach.length - dataOneEach.countP fun i => i.success)
        (pyRound1 (((dataOneEach.countP fun i => i.success : Nat) : ℚ)
          / ((dataOneEach.length : Nat) : ℚ) * 100))
        (((dataOneEach.filter fun i => i.success).map fun i => (i.text.getD "").length).sum)
        (if (dataOneEach.countP fun i => i.success && pyTruthyOptStr i.text) = 0 then 0
         else (((dataOneEach.filter fun i => i.success).map
             fun i => (i.text.getD "").length).sum)
           / (dataOneEach.countP fun i => i.success && pyTruthyOptStr i.text)) :=
  ⟨by decide, spec2proof_C9.2.2 dataOneEach (by decide)⟩

/-! ## Claim C10 -/

/-- Claim C10: a limit of 0 is falsy in `if limit:`, so
`load_article_urls` with `limit = 0` applies no truncation and returns
the same full filtered-and-sorted list as passing no limit at all. -/
theorem spec2proof_C10 (tzOff min_year : Int) (raw : List SitemapItem) :
    load_article_urls tzOff raw min_year (some 0)
      = load_article_urls tzOff raw min_year none := by
  rfl

end FtScraper
